import Mathlib

/-!
Verification of the quota-transfer and heist/check-in core of the
`astrbot_newapi_plugin` repository (`newapi_utils.py`, `heist_logic.py`).

The remote account API and the MySQL store are modelled as explicit
environments: a fetch result is an `Option` (the fetched `quota` field),
and each remote write carries a success flag supplied by the environment.
Every write the code attempts is recorded as a `(target, quota-value)`
pair so that claims about "no writes" and "never writes a negative quota"
can be stated directly.
-/

namespace NewApi

/-- Python `int(x)` applied to a rational: truncation toward zero.
`Int.tdiv` is T-division (rounds toward zero), matching Python's
`int()` cast of a float, and `q.den` is positive. -/
def intTrunc (q : ℚ) : ℤ := Int.tdiv q.num (q.den : ℤ)

/-- Which remote account a write targets: the transfer source or the
transfer destination. -/
inductive WriteTarget
  | src
  | dst
deriving DecidableEq, Repr

/-- Environment for one call of `_transfer_quota`: the two
`get_api_user_data` fetch results (`none` = fetch failed, `some q` =
record fetched with quota `q`), and the success flags of the up to three
`update_api_user` calls (debit, credit, rollback). -/
structure TransferEnv where
  fromUser : Option ℤ
  toUser : Option ℤ
  updateFromOk : Bool
  updateToOk : Bool
  rollbackOk : Bool
deriving DecidableEq, Repr

/-- Result of `_transfer_quota`: the returned pair `(success,
actual_raw_amount)`, the list of attempted remote writes in order (each
with the quota value passed to `update_api_user`), and whether the
critical "rollback failed" condition was logged. -/
structure TransferResult where
  success : Bool
  actualRawAmount : ℤ
  writes : List (WriteTarget × ℤ)
  criticalLogged : Bool
deriving DecidableEq, Repr

/-- The write phase of `_transfer_quota` (newapi_utils.py lines 310-325),
entered with the already-clamped `actual_amount`:
`if actual_amount <= 0: return True, 0`; debit source, abort on failure;
credit destination; on failure attempt the compensating source write and
log critically if that also fails. -/
def transferQuotaWrites (env : TransferEnv) (fromBalance toBalance actualAmount : ℤ) :
    TransferResult :=
  if actualAmount ≤ 0 then
    ⟨true, 0, [], false⟩
  else
    let fromQuota1 := fromBalance - actualAmount
    if env.updateFromOk = false then
      ⟨false, 0, [(.src, fromQuota1)], false⟩
    else
      let toQuota1 := toBalance + actualAmount
      if env.updateToOk = false then
        let fromQuota2 := fromQuota1 + actualAmount
        ⟨false, 0, [(.src, fromQuota1), (.dst, toQuota1), (.src, fromQuota2)],
          !env.rollbackOk⟩
      else
        ⟨true, actualAmount, [(.src, fromQuota1), (.dst, toQuota1)], false⟩

/-- `NewApiCore._transfer_quota` (newapi_utils.py lines 298-325): fetch
both records, fail fast if either fetch failed; clamp to the source
balance when `allow_partial` else fail; then run the write phase. -/
def transferQuota (env : TransferEnv) (rawAmount : ℤ) (allowPartial : Bool) :
    TransferResult :=
  match env.fromUser, env.toUser with
  | some fromBalance, some toBalance =>
    if fromBalance < rawAmount then
      if allowPartial then
        transferQuotaWrites env fromBalance toBalance fromBalance
      else
        ⟨false, 0, [], false⟩
    else
      transferQuotaWrites env fromBalance toBalance rawAmount
  | _, _ => ⟨false, 0, [], false⟩

/-- `NewApiCore.transfer_display_quota` (newapi_utils.py lines 292-297):
convert the display amount to raw units by truncating multiplication
with the configured display ratio, run `_transfer_quota`, and return
`(success, actual_display_amount, actual_raw_amount)`. -/
def transfer_display_quota (env : TransferEnv) (ratio : ℤ) (displayAmount : ℚ)
    (allowPartial : Bool) : Bool × ℚ × ℤ :=
  let rawAmount := intTrunc (displayAmount * (ratio : ℚ))
  let r := transferQuota env rawAmount allowPartial
  (r.success, (r.actualRawAmount : ℚ) / (ratio : ℚ), r.actualRawAmount)

/-- Claim C1: if the source debit write succeeded and the destination
credit write then fails, `_transfer_quota` attempts a compensating write
whose quota value is exactly the source's pre-debit balance, and returns
`(False, 0)` both when the compensation write succeeds and when it fails
(the rollback flag only controls the critical log, not the result). -/
theorem transfer_rollback_restores_source (env : TransferEnv)
    (fq tq rawAmount : ℤ) (allowPartial : Bool)
    (hf : env.fromUser = some fq) (ht : env.toUser = some tq)
    (hdeb : env.updateFromOk = true) (hcred : env.updateToOk = false)
    (hreach : fq < rawAmount → allowPartial = true)
    (hpos : 0 < if fq < rawAmount then fq else rawAmount) :
    transferQuota env rawAmount allowPartial =
      ⟨false, 0,
        [(.src, fq - (if fq < rawAmount then fq else rawAmount)),
         (.dst, tq + (if fq < rawAmount then fq else rawAmount)),
         (.src, fq)],
        !env.rollbackOk⟩ := by
  by_cases hlt : fq < rawAmount
  · have hap := hreach hlt
    have h1 : ¬ fq ≤ 0 := by rw [if_pos hlt] at hpos; omega
    subst hap
    simp [transferQuota, transferQuotaWrites, hf, ht, hlt, h1, hdeb, hcred]
  · have h1 : ¬ rawAmount ≤ 0 := by rw [if_neg hlt] at hpos; omega
    simp [transferQuota, transferQuotaWrites, hf, ht, hlt, h1, hdeb, hcred]

/-- Witness for C1 at a concrete input: source fetched with quota 5,
destination with quota 3, debit succeeds, credit fails, rollback fails;
raw amount 2, allowPartial = false. -/
theorem transfer_rollback_restores_source_witness :
    transferQuota ⟨some 5, some 3, true, false, false⟩ 2 false =
      ⟨false, 0, [(.src, 3), (.dst, 5), (.src, 5)], true⟩ := by
  have h := transfer_rollback_restores_source ⟨some 5, some 3, true, false, false⟩
    5 3 2 false rfl rfl rfl rfl (by intro h2; exact absurd h2 (by decide)) (by decide)
  simpa using h

/-- Claim C2: a transfer of a positive raw amount not exceeding the
source's fetched quota, with both remote writes succeeding, returns
`(True, rawAmount)` and writes exactly source-minus-amount then
destination-plus-amount, for either value of allowPartial. -/
theorem transfer_success_exact (env : TransferEnv)
    (fq tq rawAmount : ℤ) (allowPartial : Bool)
    (hf : env.fromUser = some fq) (ht : env.toUser = some tq)
    (hdeb : env.updateFromOk = true) (hcred : env.updateToOk = true)
    (hpos : 0 < rawAmount) (hle : rawAmount ≤ fq) :
    transferQuota env rawAmount allowPartial =
      ⟨true, rawAmount, [(.src, fq - rawAmount), (.dst, tq + rawAmount)], false⟩ := by
  have hnl : ¬ fq < rawAmount := by omega
  have hnz : ¬ rawAmount ≤ 0 := by omega
  simp [transferQuota, transferQuotaWrites, hf, ht, hnl, hnz, hdeb, hcred]

/-- Witness for C2 at a concrete input: quotas 10 and 4, raw amount 7. -/
theorem transfer_success_exact_witness :
    transferQuota ⟨some 10, some 4, true, true, true⟩ 7 true =
      ⟨true, 7, [(.src, 3), (.dst, 11), (.src, 3)], false⟩ ∨
    transferQuota ⟨some 10, some 4, true, true, true⟩ 7 true =
      ⟨true, 7, [(.src, 3), (.dst, 11)], false⟩ := by
  right
  exact transfer_success_exact ⟨some 10, some 4, true, true, true⟩ 10 4 7 true
    rfl rfl rfl rfl (by decide) (by decide)

/-- Claim C3: with allowPartial = false and the raw amount strictly above
the source's fetched quota, `_transfer_quota` returns `(False, 0)` and
attempts no remote write at all. -/
theorem transfer_insufficient_strict_no_writes (env : TransferEnv)
    (fq tq rawAmount : ℤ)
    (hf : env.fromUser = some fq) (ht : env.toUser = some tq)
    (hlt : fq < rawAmount) :
    transferQuota env rawAmount false = ⟨false, 0, [], false⟩ := by
  simp [transferQuota, hf, ht, hlt]

/-- Witness for C3 at a concrete input: quota 1, raw amount 5. -/
theorem transfer_insufficient_strict_no_writes_witness :
    transferQuota ⟨some 1, some 0, true, true, true⟩ 5 false =
      ⟨false, 0, [], false⟩ :=
  transfer_insufficient_strict_no_writes ⟨some 1, some 0, true, true, true⟩
    1 0 5 rfl rfl (by decide)

/-- Counterexample to C4 as stated: with allowPartial = true, source
quota 1 < raw amount 2, but the debit write failing, the returned actual
raw amount is 0, not the source's fetched quota 1; so the claim is false
without an assumption that the remote writes succeed. -/
theorem transfer_partial_drain_cex :
    ¬ (∀ (env : TransferEnv) (fq rawAmount : ℤ),
        env.fromUser = some fq → (∃ tq, env.toUser = some tq) →
        fq < rawAmount →
        (transferQuota env rawAmount true).actualRawAmount = fq) := by
  intro h
  have h2 := h ⟨some 1, some 0, false, true, true⟩ 1 2 rfl ⟨0, rfl⟩ (by decide)
  exact absurd h2 (by decide)

/-- Claim C4 (amended): with allowPartial = true, a non-negative source
fetched quota strictly below the raw amount, and both remote write flags
set to succeed, the transfer succeeds and the actual raw amount equals
the source's fetched quota exactly (the source is fully drained; when the
quota is 0 this is the no-op zero-movement success). -/
theorem transfer_partial_drains_source (env : TransferEnv)
    (fq tq rawAmount : ℤ)
    (hf : env.fromUser = some fq) (ht : env.toUser = some tq)
    (hdeb : env.updateFromOk = true) (hcred : env.updateToOk = true)
    (hnn : 0 ≤ fq) (hlt : fq < rawAmount) :
    (transferQuota env rawAmount true).success = true ∧
    (transferQuota env rawAmount true).actualRawAmount = fq := by
  by_cases hz : fq ≤ 0
  · have hfq : fq = 0 := le_antisymm hz hnn
    subst hfq
    simp [transferQuota, transferQuotaWrites, hf, ht, hlt]
  · simp [transferQuota, transferQuotaWrites, hf, ht, hlt, hz, hdeb, hcred]

/-- Witness for the amended C4 at a concrete input: quota 3, raw amount 9,
both writes succeed; the transfer moves exactly 3. -/
theorem transfer_partial_drains_source_witness :
    (transferQuota ⟨some 3, some 2, true, true, true⟩ 9 true).success = true ∧
    (transferQuota ⟨some 3, some 2, true, true, true⟩ 9 true).actualRawAmount = 3 :=
  transfer_partial_drains_source ⟨some 3, some 2, true, true, true⟩ 3 2 9
    rfl rfl rfl rfl (by decide) (by decide)

/-- `HeistLogic._execute_heist_transfer` (heist_logic.py lines 89-116),
given the already-resolved `(outcome, amount)`: on FAILURE, transfer the
penalty actor-to-target with the default allow_partial = False and, only
on transfer success, append a ledger entry `("FAILURE", -raw_penalty)`;
on SUCCESS or CRITICAL, transfer target-to-actor with allow_partial =
True, downgrade CRITICAL to SUCCESS unless the actual gain exceeds
`amount / 2`, and append `(final_outcome, raw_gain)`; any transfer
failure falls through to `("API_ERROR", no payload, no ledger entry)`.
The returned triple is (final outcome string, the display-amount payload
when one is returned, the ledger entries appended). -/
def execute_heist_transfer (tenv : TransferEnv) (ratio : ℤ) (outcome : String)
    (amount : ℚ) : String × Option ℚ × List (String × ℤ) :=
  if outcome = "FAILURE" then
    let t := transfer_display_quota tenv ratio amount false
    if t.1 then
      ("FAILURE", some t.2.1, [("FAILURE", -t.2.2)])
    else
      ("API_ERROR", none, [])
  else
    let baseAmount := if outcome = "CRITICAL" then amount / 2 else amount
    let t := transfer_display_quota tenv ratio amount true
    if t.1 then
      let finalOutcome :=
        if outcome = "CRITICAL" ∧ t.2.1 > baseAmount then "CRITICAL" else "SUCCESS"
      (finalOutcome, some t.2.1, [(finalOutcome, t.2.2)])
    else
      ("API_ERROR", none, [])

/-- A row of the `newapi_bindings` table: chat identity, remote account
identity, and the nullable last check-in timestamp (seconds since epoch,
UTC). The creation timestamp is never read by the core and is omitted. -/
structure Binding where
  qq_id : ℤ
  website_user_id : ℤ
  last_check_in_time : Option ℤ
deriving DecidableEq, Repr

/-- `get_user_by_qq` (newapi_utils.py line 135): first binding row whose
`qq_id` equals the argument (the column is unique, so first = only). -/
def get_user_by_qq (db : List Binding) (qqId : ℤ) : Option Binding :=
  db.find? (fun b => b.qq_id == qqId)

/-- `get_user_by_website_id` (newapi_utils.py line 136): first binding
row whose `website_user_id` equals the argument. -/
def get_user_by_website_id (db : List Binding) (websiteUserId : ℤ) : Option Binding :=
  db.find? (fun b => b.website_user_id == websiteUserId)

/-- `lookup_binding` (newapi_utils.py lines 253-260): try the identifier
as a website user id first, then as a chat id, tagging the result. -/
def lookup_binding (db : List Binding) (identifier : ℤ) : String × Option Binding :=
  match get_user_by_website_id db identifier with
  | some b => ("WEBSITE_ID", some b)
  | none =>
    match get_user_by_qq db identifier with
    | some b => ("QQ_ID", some b)
    | none => ("NOT_FOUND", none)

/-- `execute_query(..., fetch='one')` (newapi_utils.py lines 105-116) for
the daily COUNT queries: when the database pool is `None` the method logs
and returns `None` without running anything; otherwise it returns the
row the database produced (here modelled as the count value). -/
def execute_query_fetch_one (dbPoolAvailable : Bool) (row : Option ℤ) : Option ℤ :=
  if dbPoolAvailable = false then none else row

/-- `get_today_heist_counts_by_qq` (newapi_utils.py lines 281-284): run
the per-robber daily COUNT query and return `row['count']` if a row came
back, else 0. The robber id only parameterises the SQL. -/
def get_today_heist_counts_by_qq (robberQqId : ℤ) (dbPoolAvailable : Bool)
    (row : Option ℤ) : ℤ :=
  match robberQqId, execute_query_fetch_one dbPoolAvailable row with
  | _, some c => c
  | _, none => 0

/-- `get_today_defenses_count_by_id` (newapi_utils.py lines 285-288):
same shape as the attempts counter, restricted in SQL to outcomes
SUCCESS/CRITICAL for the given victim. -/
def get_today_defenses_count_by_id (victimWebsiteId : ℤ) (dbPoolAvailable : Bool)
    (row : Option ℤ) : ℤ :=
  match victimWebsiteId, execute_query_fetch_one dbPoolAvailable row with
  | _, some c => c
  | _, none => 0

/-- The `heist_settings` configuration keys consumed by
`_validate_heist_conditions`, with the source's `.get` defaults applied
by the caller of this model. -/
structure HeistConf where
  enabled : Bool
  max_attempts_per_day : ℤ
  max_defenses_per_day : ℤ
deriving DecidableEq, Repr

/-- `HeistLogic._validate_heist_conditions` (heist_logic.py lines 40-68):
feature flag, robber binding by chat id, victim by smart lookup,
self-target check on website ids, then the two daily-limit guards (their
counts are environment inputs, produced by the two counter queries).
Returns the outcome tag and, when VALID, the resolved
(robber site id, victim site id). -/
def validate_heist_conditions (conf : HeistConf) (db : List Binding)
    (robberAttempts victimDefenses : ℤ) (robberQqId victimIdentifier : ℤ) :
    String × Option (ℤ × ℤ) :=
  if conf.enabled = false then ("DISABLED", none)
  else
    match get_user_by_qq db robberQqId with
    | none => ("ROBBER_NOT_BOUND", none)
    | some robberBinding =>
      match (lookup_binding db victimIdentifier).2 with
      | none => ("VICTIM_NOT_FOUND", none)
      | some victimBinding =>
        let robberSiteId := robberBinding.website_user_id
        let victimSiteId := victimBinding.website_user_id
        if robberSiteId = victimSiteId then ("CANNOT_ROB_SELF", none)
        else if robberAttempts ≥ conf.max_attempts_per_day then
          ("ATTEMPTS_EXCEEDED", none)
        else if victimDefenses ≥ conf.max_defenses_per_day then
          ("DEFENSES_EXCEEDED", none)
        else ("VALID", some (robberSiteId, victimSiteId))

/-- The `check_in_settings` configuration keys consumed by
`perform_check_in`, with the source's `.get` defaults applied by the
caller of this model. -/
structure CheckInConf where
  enabled : Bool
  timezone_offset_hours : ℤ
  first_check_in_bonus_enabled : Bool
  first_check_in_bonus_display_quota : ℚ
  min_display_quota : ℚ
  max_display_quota : ℚ
deriving DecidableEq, Repr

/-- Environment for one call of `perform_check_in`: configuration, the
display ratio, the resolved binding (the `binding or get_user_by_qq`
result), the current UTC instant in epoch seconds, the account fetch
result, the write success flag, and the two random draws (`random()
< double_chance` as a Bool, `random.uniform(min, max)` as a rational). -/
structure CheckInEnv where
  conf : CheckInConf
  ratio : ℤ
  binding : Option Binding
  nowUtc : ℤ
  apiUserQuota : Option ℤ
  updateOk : Bool
  isDoubledDraw : Bool
  baseDisplayDraw : ℚ
deriving DecidableEq, Repr

/-- `.date()` of an epoch-second instant: the calendar-day index
(floor division, days start at multiples of 86400 seconds). -/
def dateOf (ts : ℤ) : ℤ := Int.fdiv ts 86400

/-- The externally visible effects of one `perform_check_in` call:
whether the remote account was fetched, the quota value passed to
`update_api_user` when a write was attempted, and whether
`set_check_in_time` ran. -/
structure CheckInEffects where
  apiFetched : Bool
  quotaWrite : Option ℤ
  timestampSet : Bool
deriving DecidableEq, Repr

/-- The payout phase of `perform_check_in` (newapi_utils.py lines
199-234), reached after the same-day guard: first check-in with the
bonus enabled gets the flat bonus and skips the doubling draw; otherwise
the doubling draw applies; the uniform base draw is converted to raw
units, doubled if drawn, the bonus added; then fetch, add to the current
quota, write, and persist the timestamp only after a successful write. -/
def checkInPayout (env : CheckInEnv) (isFirst : Bool) : String × CheckInEffects :=
  let bonusQuota : ℤ :=
    if isFirst && env.conf.first_check_in_bonus_enabled then
      intTrunc (env.conf.first_check_in_bonus_display_quota * (env.ratio : ℚ))
    else 0
  let isDoubled : Bool :=
    if isFirst && env.conf.first_check_in_bonus_enabled then false
    else env.isDoubledDraw
  let baseQuota := intTrunc (env.baseDisplayDraw * (env.ratio : ℚ))
  let regularQuota := if isDoubled then baseQuota * 2 else baseQuota
  let finalQuota := regularQuota + bonusQuota
  match env.apiUserQuota with
  | none => ("API_USER_NOT_FOUND", ⟨true, none, false⟩)
  | some currentQuota =>
    let newQuota := currentQuota + finalQuota
    if env.updateOk = false then ("API_UPDATE_FAILED", ⟨true, some newQuota, false⟩)
    else ("SUCCESS", ⟨true, some newQuota, true⟩)

/-- `perform_check_in` (newapi_utils.py lines 169-234): feature flag,
binding presence, then the offset-adjusted same-local-day guard (compare
date components of last check-in and now, both shifted by the configured
fixed-hour offset); only past that guard does the payout phase run. -/
def perform_check_in (env : CheckInEnv) : String × CheckInEffects :=
  if env.conf.enabled = false then ("DISABLED", ⟨false, none, false⟩)
  else
    match env.binding with
    | none => ("NOT_BOUND", ⟨false, none, false⟩)
    | some binding =>
      let offsetSeconds := env.conf.timezone_offset_hours * 3600
      let localToday := dateOf (env.nowUtc + offsetSeconds)
      match binding.last_check_in_time with
      | some lastTime =>
        if dateOf (lastTime + offsetSeconds) = localToday then
          ("ALREADY_CHECKED_IN", ⟨false, none, false⟩)
        else checkInPayout env false
      | none => checkInPayout env true

/-- `adjust_balance_by_identifier` (newapi_utils.py lines 261-280):
resolve the identifier via smart lookup, fetch the account, convert the
display adjustment to raw units, clamp a negative new total to 0, then
write. The second component is the quota value passed to
`update_api_user` when the write is attempted. -/
def adjust_balance_by_identifier (db : List Binding) (apiUserQuota : Option ℤ)
    (updateOk : Bool) (ratio : ℤ) (identifier : ℤ) (displayAdjustment : ℚ) :
    String × Option ℤ :=
  match (lookup_binding db identifier).2 with
  | none => ("USER_NOT_FOUND", none)
  | some _binding =>
    match apiUserQuota with
    | none => ("API_FETCH_FAILED", none)
    | some currentRawQuota =>
      let rawQuotaAdjustment := intTrunc (displayAdjustment * (ratio : ℚ))
      let newTotalRawQuota := currentRawQuota + rawQuotaAdjustment
      let clampedTotal := if newTotalRawQuota < 0 then 0 else newTotalRawQuota
      if updateOk = false then ("API_UPDATE_FAILED", some clampedTotal)
      else ("SUCCESS", some clampedTotal)

/-- Claim C5: a heist-ledger entry is appended if and only if the
transfer of the reached branch (allow_partial = False for FAILURE,
True for SUCCESS/CRITICAL) reported success; on transfer failure the
orchestrator returns API_ERROR and appends nothing. -/
theorem heist_ledger_iff_transfer_success (tenv : TransferEnv) (ratio : ℤ)
    (outcome : String) (amount : ℚ) :
    ((execute_heist_transfer tenv ratio outcome amount).2.2 ≠ [] ↔
      (transfer_display_quota tenv ratio amount
        (if outcome = "FAILURE" then false else true)).1 = true) ∧
    ((transfer_display_quota tenv ratio amount
        (if outcome = "FAILURE" then false else true)).1 = false →
      (execute_heist_transfer tenv ratio outcome amount).1 = "API_ERROR" ∧
      (execute_heist_transfer tenv ratio outcome amount).2.2 = []) := by
  by_cases hout : outcome = "FAILURE"
  · by_cases hs : (transfer_display_quota tenv ratio amount false).1 = true
    · simp [execute_heist_transfer, hout, hs]
    · simp only [Bool.not_eq_true] at hs
      simp [execute_heist_transfer, hout, hs]
  · by_cases hs : (transfer_display_quota tenv ratio amount true).1 = true
    · simp [execute_heist_transfer, hout, hs]
    · simp only [Bool.not_eq_true] at hs
      simp [execute_heist_transfer, hout, hs]

/-- Claim C6: for a heist resolved as CRITICAL whose transfer from the
target succeeds, the final reported outcome is CRITICAL exactly when the
actual display gain exceeds amount / 2, and SUCCESS otherwise; a heist
resolved as SUCCESS is never reported as CRITICAL. -/
theorem heist_critical_downgrade (tenv : TransferEnv) (ratio : ℤ) (amount : ℚ)
    (hs : (transfer_display_quota tenv ratio amount true).1 = true) :
    ((execute_heist_transfer tenv ratio "CRITICAL" amount).1 =
      if (transfer_display_quota tenv ratio amount true).2.1 > amount / 2
      then "CRITICAL" else "SUCCESS") ∧
    (execute_heist_transfer tenv ratio "SUCCESS" amount).1 ≠ "CRITICAL" := by
  constructor
  · by_cases hg : (transfer_display_quota tenv ratio amount true).2.1 > amount / 2
    · simp [execute_heist_transfer, hs, hg]
    · simp [execute_heist_transfer, hs, hg]
  · simp [execute_heist_transfer, hs]

/-- Witness for C6 at a concrete input: target quota 10 raw, ratio 1,
resolved amount 4 display; the transfer succeeds with gain 4 > 4/2, so
the outcome stays CRITICAL, and a resolved SUCCESS is reported SUCCESS. -/
theorem heist_critical_downgrade_witness :
    ((execute_heist_transfer ⟨some 10, some 0, true, true, true⟩ 1 "CRITICAL" 4).1 =
      if (transfer_display_quota ⟨some 10, some 0, true, true, true⟩ 1 4 true).2.1 > 4 / 2
      then "CRITICAL" else "SUCCESS") ∧
    (execute_heist_transfer ⟨some 10, some 0, true, true, true⟩ 1 "SUCCESS" 4).1 ≠
      "CRITICAL" :=
  heist_critical_downgrade ⟨some 10, some 0, true, true, true⟩ 1 4
    (by norm_num [transfer_display_quota, transferQuota, transferQuotaWrites, intTrunc])

theorem intTrunc_nonneg {q : ℚ} (hq : 0 ≤ q) : 0 ≤ intTrunc q := by
  unfold intTrunc
  apply Int.tdiv_nonneg
  · exact Rat.num_nonneg.mpr hq
  · exact_mod_cast Nat.zero_le q.den

theorem transferQuotaWrites_nonneg (env : TransferEnv) (fb tb a : ℤ)
    (h0f : 0 ≤ fb) (h0t : 0 ≤ tb) (hle : a ≤ fb) :
    ∀ w ∈ (transferQuotaWrites env fb tb a).writes, 0 ≤ w.2 := by
  intro w hw
  unfold transferQuotaWrites at hw
  by_cases hz : a ≤ 0
  · simp [hz] at hw
  · by_cases h1 : env.updateFromOk = false
    · simp [hz, h1] at hw
      subst hw
      simp
      omega
    · by_cases h2 : env.updateToOk = false
      · simp [hz, h1, h2] at hw
        rcases hw with hw | hw | hw <;> subst hw <;> simp <;> omega
      · simp [hz, h1, h2] at hw
        rcases hw with hw | hw <;> subst hw <;> simp <;> omega

theorem checkInPayout_write_nonneg (env : CheckInEnv) (isFirst : Bool)
    (h0r : 0 ≤ env.ratio) (h0d : 0 ≤ env.baseDisplayDraw)
    (h0b : 0 ≤ env.conf.first_check_in_bonus_display_quota)
    (h0q : ∀ q, env.apiUserQuota = some q → 0 ≤ q) :
    ∀ v, (checkInPayout env isFirst).2.quotaWrite = some v → 0 ≤ v := by
  intro v hv
  have hbase : 0 ≤ intTrunc (env.baseDisplayDraw * (env.ratio : ℚ)) :=
    intTrunc_nonneg (mul_nonneg h0d (by exact_mod_cast h0r))
  have hbonus : 0 ≤ intTrunc
      (env.conf.first_check_in_bonus_display_quota * (env.ratio : ℚ)) :=
    intTrunc_nonneg (mul_nonneg h0b (by exact_mod_cast h0r))
  unfold checkInPayout at hv
  cases hq : env.apiUserQuota with
  | none => rw [hq] at hv; simp at hv
  | some cur =>
    have hcur := h0q cur hq
    rw [hq] at hv
    by_cases hfb : (isFirst && env.conf.first_check_in_bonus_enabled) = true <;>
      by_cases hd : env.isDoubledDraw = true <;>
      by_cases hu : env.updateOk = false <;>
      (simp [hfb, hd, hu] at hv; omega)

theorem validate_heist_valid (conf : HeistConf) (db : List Binding)
    (attempts defenses robberQq victimIdentifier : ℤ) (rb vb : Binding)
    (hen : conf.enabled = true)
    (hrb : get_user_by_qq db robberQq = some rb)
    (hvb : (lookup_binding db victimIdentifier).2 = some vb)
    (hne : rb.website_user_id ≠ vb.website_user_id)
    (ha : attempts < conf.max_attempts_per_day)
    (hd : defenses < conf.max_defenses_per_day) :
    validate_heist_conditions conf db attempts defenses robberQq victimIdentifier =
      ("VALID", some (rb.website_user_id, vb.website_user_id)) := by
  have h1 : ¬ conf.enabled = false := by simp [hen]
  have h2 : ¬ attempts ≥ conf.max_attempts_per_day := by omega
  have h3 : ¬ defenses ≥ conf.max_defenses_per_day := by omega
  simp [validate_heist_conditions, h1, hrb, hvb, hne, h2, h3]

/-- Claim C7: none of the core's remote account writes passes a negative
quota value — every write of `_transfer_quota` (including the
compensating rollback write), the check-in payout write, and the admin
balance-adjustment write — given non-negative fetched quotas and
non-negative configured payout amounts (display ratio, uniform base
draw, and first-check-in bonus). -/
theorem no_negative_quota_written
    (env : TransferEnv) (fq tq rawAmount : ℤ) (allowPartial : Bool)
    (cenv : CheckInEnv) (db : List Binding) (apiQuota : Option ℤ) (uOk : Bool)
    (ratio identifier : ℤ) (displayAdjustment : ℚ)
    (hf : env.fromUser = some fq) (ht : env.toUser = some tq)
    (h0f : 0 ≤ fq) (h0t : 0 ≤ tq)
    (h0r : 0 ≤ cenv.ratio) (h0d : 0 ≤ cenv.baseDisplayDraw)
    (h0b : 0 ≤ cenv.conf.first_check_in_bonus_display_quota)
    (h0q : ∀ q, cenv.apiUserQuota = some q → 0 ≤ q) :
    (∀ w ∈ (transferQuota env rawAmount allowPartial).writes, 0 ≤ w.2) ∧
    (∀ v, (perform_check_in cenv).2.quotaWrite = some v → 0 ≤ v) ∧
    (∀ v, (adjust_balance_by_identifier db apiQuota uOk ratio identifier
        displayAdjustment).2 = some v → 0 ≤ v) := by
  refine ⟨?_, ?_, ?_⟩
  · by_cases hlt : fq < rawAmount
    · by_cases hap : allowPartial = true
      · have heq : transferQuota env rawAmount allowPartial =
            transferQuotaWrites env fq tq fq := by
          unfold transferQuota
          rw [hf, ht]
          simp [hlt, hap]
        rw [heq]
        exact transferQuotaWrites_nonneg env fq tq fq h0f h0t le_rfl
      · simp only [Bool.not_eq_true] at hap
        have heq : transferQuota env rawAmount allowPartial =
            ⟨false, 0, [], false⟩ := by
          unfold transferQuota
          rw [hf, ht]
          simp [hlt, hap]
        rw [heq]
        simp
    · have heq : transferQuota env rawAmount allowPartial =
          transferQuotaWrites env fq tq rawAmount := by
        unfold transferQuota
        rw [hf, ht]
        simp [hlt]
      rw [heq]
      exact transferQuotaWrites_nonneg env fq tq rawAmount h0f h0t (by omega)
  · intro v hv
    unfold perform_check_in at hv
    by_cases hen : cenv.conf.enabled = false
    · rw [if_pos hen] at hv
      simp at hv
    · rw [if_neg hen] at hv
      cases hb : cenv.binding with
      | none => rw [hb] at hv; simp at hv
      | some b =>
        rw [hb] at hv
        cases hl : b.last_check_in_time with
        | none =>
          simp only [hl] at hv
          exact checkInPayout_write_nonneg cenv true h0r h0d h0b h0q v hv
        | some lastTime =>
          simp only [hl] at hv
          by_cases hsame : dateOf (lastTime + cenv.conf.timezone_offset_hours * 3600) =
              dateOf (cenv.nowUtc + cenv.conf.timezone_offset_hours * 3600)
          · rw [if_pos hsame] at hv
            simp at hv
          · rw [if_neg hsame] at hv
            exact checkInPayout_write_nonneg cenv false h0r h0d h0b h0q v hv
  · intro v hv
    unfold adjust_balance_by_identifier at hv
    cases hlb : (lookup_binding db identifier).2 with
    | none => rw [hlb] at hv; simp at hv
    | some b =>
      rw [hlb] at hv
      cases ha : apiQuota with
      | none => rw [ha] at hv; simp at hv
      | some cur =>
        rw [ha] at hv
        by_cases hneg : cur + intTrunc (displayAdjustment * (ratio : ℚ)) < 0 <;>
          by_cases hu : uOk = false <;>
          (simp [hneg, hu] at hv; omega)

/-- Witness for C7 at concrete inputs: a transfer with quotas 5 and 3
moving 2; a first check-in with bonus 1 display at ratio 500000 on an
account holding 7 raw; an adjustment of -3 display on an unbound
identifier. -/
theorem no_negative_quota_written_witness :
    (∀ w ∈ (transferQuota ⟨some 5, some 3, true, true, true⟩ 2 false).writes,
      0 ≤ w.2) ∧
    (∀ v, (perform_check_in
        ⟨⟨true, 8, true, 1, 0, 5⟩, 500000, some ⟨1, 2, none⟩, 0, some 7, true,
          false, 3⟩).2.quotaWrite = some v → 0 ≤ v) ∧
    (∀ v, (adjust_balance_by_identifier [] (some 4) true 500000 9
        (-3)).2 = some v → 0 ≤ v) :=
  no_negative_quota_written ⟨some 5, some 3, true, true, true⟩ 5 3 2 false
    ⟨⟨true, 8, true, 1, 0, 5⟩, 500000, some ⟨1, 2, none⟩, 0, some 7, true, false, 3⟩
    [] (some 4) true 500000 9 (-3) rfl rfl (by decide) (by decide) (by decide)
    (by decide) (by decide)
    (by intro q hq; injection hq with h2; omega)

/-- Claim C8: with check-in enabled and a binding whose last check-in
instant, shifted by the configured fixed-hour offset, falls on the same
calendar date as the current instant shifted the same way,
`perform_check_in` returns ALREADY_CHECKED_IN with no remote account
fetch, no remote write, and no timestamp update — whatever the actual
number of seconds elapsed. -/
theorem check_in_same_local_day_no_effects (env : CheckInEnv) (b : Binding) (t : ℤ)
    (hen : env.conf.enabled = true) (hb : env.binding = some b)
    (hl : b.last_check_in_time = some t)
    (hsame : dateOf (t + env.conf.timezone_offset_hours * 3600) =
             dateOf (env.nowUtc + env.conf.timezone_offset_hours * 3600)) :
    perform_check_in env = ("ALREADY_CHECKED_IN", ⟨false, none, false⟩) := by
  have h1 : ¬ env.conf.enabled = false := by simp [hen]
  simp [perform_check_in, h1, hb, hl, hsame]

/-- Witness for C8 at a concrete input: last check-in at epoch second
100, now at epoch second 86000 (more than 23 wall-clock hours later but
still the same offset-0 day). -/
theorem check_in_same_local_day_no_effects_witness :
    perform_check_in
      ⟨⟨true, 0, false, 0, 0, 0⟩, 500000, some ⟨1, 2, some 100⟩, 86000, some 0,
        true, false, 0⟩ = ("ALREADY_CHECKED_IN", ⟨false, none, false⟩) :=
  check_in_same_local_day_no_effects
    ⟨⟨true, 0, false, 0, 0, 0⟩, 500000, some ⟨1, 2, some 100⟩, 86000, some 0,
      true, false, 0⟩ ⟨1, 2, some 100⟩ 100 rfl rfl rfl (by decide)

/-- Claim C9: the smart lookup tries the identifier as a remote-account
id first (tag WEBSITE_ID), consults the chat-id interpretation only when
no remote-account id matches, and consequently an actor targeting their
own chat id when another user's remote-account id equals that number
gets that other user resolved as victim (VALID, not CANNOT_ROB_SELF). -/
theorem lookup_website_id_first
    : (∀ (db : List Binding) (identifier : ℤ) (b : Binding),
        get_user_by_website_id db identifier = some b →
        lookup_binding db identifier = ("WEBSITE_ID", some b)) ∧
      (∀ (db : List Binding) (identifier : ℤ),
        get_user_by_website_id db identifier = none →
        lookup_binding db identifier =
          (match get_user_by_qq db identifier with
           | some b => ("QQ_ID", some b)
           | none => ("NOT_FOUND", none))) ∧
      (∀ (conf : HeistConf) (db : List Binding)
          (attempts defenses robberQq : ℤ) (rb vb : Binding),
        conf.enabled = true →
        get_user_by_qq db robberQq = some rb →
        get_user_by_website_id db robberQq = some vb →
        vb.website_user_id ≠ rb.website_user_id →
        attempts < conf.max_attempts_per_day →
        defenses < conf.max_defenses_per_day →
        validate_heist_conditions conf db attempts defenses robberQq robberQq =
          ("VALID", some (rb.website_user_id, vb.website_user_id))) := by
  refine ⟨?_, ?_, ?_⟩
  · intro db identifier b h
    simp [lookup_binding, h]
  · intro db identifier h
    simp [lookup_binding, h]
  · intro conf db attempts defenses robberQq rb vb hen hrb hw hne ha hd
    have hvb : (lookup_binding db robberQq).2 = some vb := by
      simp [lookup_binding, hw]
    exact validate_heist_valid conf db attempts defenses robberQq robberQq rb vb
      hen hrb hvb (fun h => hne h.symm) ha hd

/-- Witness for C9 at concrete inputs: a website id 7 is found as
WEBSITE_ID, and a robber with chat id 5 and site id 9 targeting the
number 5 — which is another user's website id — gets that user resolved
as victim. -/
theorem lookup_website_id_first_witness :
    lookup_binding [⟨1, 7, none⟩] 7 = ("WEBSITE_ID", some ⟨1, 7, none⟩) ∧
    validate_heist_conditions ⟨true, 1, 3⟩ [⟨5, 9, none⟩, ⟨2, 5, none⟩] 0 0 5 5 =
      ("VALID", some (9, 5)) :=
  ⟨lookup_website_id_first.1 [⟨1, 7, none⟩] 7 ⟨1, 7, none⟩ rfl,
   lookup_website_id_first.2.2 ⟨true, 1, 3⟩ [⟨5, 9, none⟩, ⟨2, 5, none⟩] 0 0 5
     ⟨5, 9, none⟩ ⟨2, 5, none⟩ rfl rfl rfl (by decide) (by decide) (by decide)⟩

/-- Claim C10: whenever the daily-count query yields no row — in
particular whenever the database pool is unavailable, in which case
`execute_query` returns nothing — both daily counters return 0, and with
positive configured maxima the ATTEMPTS_EXCEEDED and DEFENSES_EXCEEDED
guards pass, so a heist that clears the earlier guards validates as if
no prior activity existed. -/
theorem counts_zero_on_no_row
    : (∀ (rq : ℤ) (avail : Bool) (row : Option ℤ),
        execute_query_fetch_one avail row = none →
        get_today_heist_counts_by_qq rq avail row = 0) ∧
      (∀ (vw : ℤ) (avail : Bool) (row : Option ℤ),
        execute_query_fetch_one avail row = none →
        get_today_defenses_count_by_id vw avail row = 0) ∧
      (∀ row : Option ℤ, execute_query_fetch_one false row = none) ∧
      (∀ (conf : HeistConf) (db : List Binding)
          (robberQq victimIdentifier : ℤ) (rb vb : Binding) (rowA rowD : Option ℤ),
        conf.enabled = true →
        get_user_by_qq db robberQq = some rb →
        (lookup_binding db victimIdentifier).2 = some vb →
        rb.website_user_id ≠ vb.website_user_id →
        0 < conf.max_attempts_per_day →
        0 < conf.max_defenses_per_day →
        validate_heist_conditions conf db
          (get_today_heist_counts_by_qq robberQq false rowA)
          (get_today_defenses_count_by_id vb.website_user_id false rowD)
          robberQq victimIdentifier =
          ("VALID", some (rb.website_user_id, vb.website_user_id))) := by
  have hq0 : ∀ (rq : ℤ) (avail : Bool) (row : Option ℤ),
      execute_query_fetch_one avail row = none →
      get_today_heist_counts_by_qq rq avail row = 0 := by
    intro rq avail row h
    simp [get_today_heist_counts_by_qq, h]
  have hd0 : ∀ (vw : ℤ) (avail : Bool) (row : Option ℤ),
      execute_query_fetch_one avail row = none →
      get_today_defenses_count_by_id vw avail row = 0 := by
    intro vw avail row h
    simp [get_today_defenses_count_by_id, h]
  have hnone : ∀ row : Option ℤ, execute_query_fetch_one false row = none := by
    intro row
    simp [execute_query_fetch_one]
  refine ⟨hq0, hd0, hnone, ?_⟩
  intro conf db robberQq victimIdentifier rb vb rowA rowD hen hrb hvb hne hma hmd
  rw [hq0 robberQq false rowA (hnone rowA),
    hd0 vb.website_user_id false rowD (hnone rowD)]
  exact validate_heist_valid conf db 0 0 robberQq victimIdentifier rb vb
    hen hrb hvb hne hma hmd

/-- Witness for C10 at concrete inputs: with the pool down both counters
read 0 even when a row value is supplied, and a well-formed heist between
chat id 5 (site 9) and site 7 validates. -/
theorem counts_zero_on_no_row_witness :
    get_today_heist_counts_by_qq 5 false (some 99) = 0 ∧
    get_today_defenses_count_by_id 7 false (some 99) = 0 ∧
    validate_heist_conditions ⟨true, 1, 3⟩ [⟨5, 9, none⟩, ⟨2, 7, none⟩]
      (get_today_heist_counts_by_qq 5 false (some 99))
      (get_today_defenses_count_by_id 7 false (some 99)) 5 7 =
      ("VALID", some (9, 7)) :=
  ⟨counts_zero_on_no_row.1 5 false (some 99) (counts_zero_on_no_row.2.2.1 (some 99)),
   counts_zero_on_no_row.2.1 7 false (some 99) (counts_zero_on_no_row.2.2.1 (some 99)),
   counts_zero_on_no_row.2.2.2 ⟨true, 1, 3⟩ [⟨5, 9, none⟩, ⟨2, 7, none⟩] 5 7
     ⟨5, 9, none⟩ ⟨2, 7, none⟩ (some 99) (some 99) rfl rfl rfl (by decide)
     (by decide) (by decide)⟩

end NewApi
